import Mathlib

/-!
Verification of `restic-backup-wrapper.py` and `filter_plugins/filters.py`
from the ansible-restic repository, as a shallow embedding in Lean 4.

Conventions of the embedding:
* Python strings are Lean `String`s; `str.strip()` is `pyStrip`,
  `str.split(sep)` is `pySplit` / `pySplitFirst`, `"c" in s` (single
  character) is `pyContains`, `str.lower()` is `pyLower`, `int(s)` is
  `pyInt?`, all defined below by structural recursion on the character
  list so that concrete runs reduce in the kernel.
* The environment map (a Python `dict` built by insertion) is an association
  list with at most one entry per key; `dict["k"] = v` is `envInsert`,
  `dict.get("k", "")` is `envGet`.
* `sys.exit(1)` after printing validation errors is modelled by the
  `EmailConfigResult.invalid` constructor carrying the printed error list.
* The output of the child process is modelled as the sequence of chunks it
  writes, each tagged with the channel it was written to; `capture_output`
  gathers each channel independently, which `drainOut` / `drainErr` model.
-/

/-- One write performed by the child process: a chunk of text on either
standard output or standard error.  The order of the list of events is the
wall-clock order of the writes, so a list of events fixes the relative
timing of the two streams. -/
inductive StreamEvent : Type
  | out (chunk : String)
  | err (chunk : String)
deriving DecidableEq, Repr

/-- What `capture_output=True` collects from the stdout pipe: the
concatenation of the chunks written to standard output, in write order
(`result.stdout`). -/
def drainOut : List StreamEvent → String
  | [] => ""
  | .out s :: rest => s ++ drainOut rest
  | .err _ :: rest => drainOut rest

/-- What `capture_output=True` collects from the stderr pipe
(`result.stderr`). -/
def drainErr : List StreamEvent → String
  | [] => ""
  | .out _ :: rest => drainErr rest
  | .err s :: rest => s ++ drainErr rest

/-- The sequence of stdout chunks, in write order. -/
def outLines (es : List StreamEvent) : List String :=
  es.filterMap fun e => match e with | .out s => some s | .err _ => none

/-- The sequence of stderr chunks, in write order. -/
def errLines (es : List StreamEvent) : List String :=
  es.filterMap fun e => match e with | .err s => some s | .out _ => none

/-- Result of a successfully launched child process: its writes and its
exit status (`subprocess.run`'s `CompletedProcess`). -/
structure ProcResult : Type where
  events : List StreamEvent
  returncode : Int
deriving DecidableEq, Repr

/-- Outcome of attempting to launch the child process: either the process
ran to completion, or `subprocess.run` raised (missing binary, permission
denied, ...) with the given exception message. -/
inductive LaunchOutcome : Type
  | ok (r : ProcResult)
  | failure (exMsg : String)
deriving DecidableEq, Repr

/-- `run_backup` (restic-backup-wrapper.py, lines 182-222), reduced to the
part the launch outcome determines: on success it returns
`(result.returncode, result.stdout + result.stderr)`; if launching raised
it returns `(1, "Failed to execute backup command: <e>")`. -/
def run_backup : LaunchOutcome → Int × String
  | .ok r => (r.returncode, drainOut r.events ++ drainErr r.events)
  | .failure e => (1, "Failed to execute backup command: " ++ e)

/-- `extend` from filter_plugins/filters.py: `a.extend(b); return a`.
Python's `list.extend` walks the iterable `b` and appends its elements to
`a` one at a time, then the (mutated) list is returned. -/
def extend {α : Type} (a b : List α) : List α :=
  b.foldl (fun acc x => acc.concat x) a

/-- Connection mode chosen by `send_email` (lines 40-57). -/
inductive SmtpMode : Type
  | sslOnConnect
  | starttlsUpgrade
  | plaintext
deriving DecidableEq, Repr

/-- The transport selection of `send_email`: `if use_tls and smtp_port ==
465:` use `smtplib.SMTP_SSL`; otherwise open a plain `smtplib.SMTP`
connection and call `starttls()` exactly when `use_tls` is set. -/
def sendEmailMode (useTls : Bool) (smtpPort : Int) : SmtpMode :=
  if useTls && smtpPort == 465 then .sslOnConnect
  else if useTls then .starttlsUpgrade
  else .plaintext

/-- The environment map built by `load_environment_file`: an association
list with at most one entry per key (a Python `dict`, insertion-ordered). -/
abbrev EnvMap : Type := List (String × String)

/-- Assignment `env_vars[key] = value` on a `dict`: if the key is present
its value is replaced in place, otherwise the pair is appended. -/
def envInsert (m : EnvMap) (k v : String) : EnvMap :=
  if m.any (fun p => p.1 == k) then
    m.map (fun p => if p.1 == k then (p.1, v) else p)
  else
    m ++ [(k, v)]

/-- Lookup `env_vars.get(key, "")`. -/
def envGet (m : EnvMap) (k : String) : String :=
  ((m.find? (fun p => p.1 == k)).map Prod.snd).getD ""

/-- Python's whitespace set for `str.strip()`: space, tab, newline,
carriage return, vertical tab, form feed. -/
def isSpaceChar (c : Char) : Bool :=
  c == ' ' || c == '\t' || c == '\n' || c == '\r' || c == Char.ofNat 11 || c == Char.ofNat 12

/-- `s.strip()`: remove leading and trailing whitespace. -/
def pyStrip (s : String) : String :=
  ⟨((s.data.dropWhile isSpaceChar).reverse.dropWhile isSpaceChar).reverse⟩

/-- `c in s` for a single-character `c`. -/
def pyContains (s : String) (c : Char) : Bool := s.data.contains c

/-- `s.startswith(p)` for a single-character prefix `p`. -/
def pyStartsWith (s : String) (c : Char) : Bool :=
  match s.data with
  | [] => false
  | d :: _ => d == c

/-- `s.lower()` (ASCII case mapping, which is all the wrapper compares). -/
def pyLower (s : String) : String := ⟨s.data.map Char.toLower⟩

/-- Helper for `pySplit`: accumulate the current field (reversed). -/
def splitSepAux (sep : Char) : List Char → List Char → List (List Char)
  | [], acc => [acc.reverse]
  | c :: cs, acc =>
    if c == sep then acc.reverse :: splitSepAux sep cs []
    else splitSepAux sep cs (c :: acc)

/-- `s.split(sep)` for a single-character separator: splits at every
occurrence; `"".split(",") == [""]`. -/
def pySplit (s : String) (sep : Char) : List String :=
  (splitSepAux sep s.data []).map String.mk

/-- Helper for `pySplitFirst`. -/
def splitFirstAux (sep : Char) : List Char → List Char → List Char × List Char
  | [], acc => (acc.reverse, [])
  | c :: cs, acc =>
    if c == sep then (acc.reverse, cs) else splitFirstAux sep cs (c :: acc)

/-- `s.split(sep, 1)` for a single-character separator occurring in `s`:
the text before the first occurrence paired with everything after it.
(When the separator is absent the second component is `""`; every caller
guards on `pyContains` first, where Python's unpacking would raise.) -/
def pySplitFirst (s : String) (sep : Char) : String × String :=
  let r := splitFirstAux sep s.data []
  (⟨r.1⟩, ⟨r.2⟩)

/-- The filter of `load_environment_file` (lines 70-72): a line is
processed when, after stripping, it is nonempty, contains `=`, and does
not start with `#`. -/
def isValidLine (raw : String) : Bool :=
  let line := pyStrip raw
  !line.isEmpty && pyContains line '=' && !pyStartsWith line '#'

/-- `key, value = line.split("=", 1)` followed by stripping both parts
(lines 73-74), applied to an already-stripped line. -/
def parseLine (line : String) : String × String :=
  let kv := pySplitFirst line '='
  (pyStrip kv.1, pyStrip kv.2)

/-- The stripped key a raw line contributes, if processed. -/
def lineKey (raw : String) : String := (parseLine (pyStrip raw)).1

/-- One iteration of the loop of `load_environment_file`. -/
def processLine (m : EnvMap) (raw : String) : EnvMap :=
  if isValidLine raw then
    let kv := parseLine (pyStrip raw)
    envInsert m kv.1 kv.2
  else m

/-- `load_environment_file` (lines 65-78), on the file's lines.  The
Python function also exits with code 1 when the file cannot be read; that
path never returns a map and is outside this definition. -/
def load_environment_file (lines : List String) : EnvMap :=
  lines.foldl processLine []

/-- Digits of Python's `int()` grammar after the first digit: decimal
digits with single underscores allowed between digits. -/
def pyDigitsAux : List Char → Nat → Option Nat
  | [], acc => some acc
  | '_' :: c :: cs, acc =>
    if c.isDigit then pyDigitsAux cs (acc * 10 + (c.toNat - 48)) else none
  | ['_'], _ => none
  | c :: cs, acc =>
    if c.isDigit then pyDigitsAux cs (acc * 10 + (c.toNat - 48)) else none

/-- A digit run of Python's `int()` grammar: at least one digit first. -/
def pyDigitsStart : List Char → Option Nat
  | [] => none
  | c :: cs => if c.isDigit then pyDigitsAux cs (c.toNat - 48) else none

/-- Python's `int(s)` on an already-stripped decimal string: an optional
sign followed by digits (single underscores permitted between digits).
`none` models the `ValueError` that `get_email_config` catches. -/
def pyInt? (s : String) : Option Int :=
  match s.data with
  | '+' :: cs => (pyDigitsStart cs).map Int.ofNat
  | '-' :: cs => (pyDigitsStart cs).map (fun n => -(n : Int))
  | cs => (pyDigitsStart cs).map Int.ofNat

/-- The stripped value of `RESTIC_EMAIL_TO` (line 96). -/
def toEmailsVal (env : EnvMap) : String := pyStrip (envGet env "RESTIC_EMAIL_TO")

/-- The recipient list: `[email.strip() for email in to_emails.split(",")]`
(lines 103 and 171). -/
def toEmailList (env : EnvMap) : List String := (pySplit (toEmailsVal env) ',').map pyStrip

/-- The stripped value of `RESTIC_EMAIL_FROM` (line 110). -/
def fromEmailVal (env : EnvMap) : String := pyStrip (envGet env "RESTIC_EMAIL_FROM")

/-- The stripped value of `RESTIC_EMAIL_SMTP_SERVER` (line 119). -/
def smtpServerVal (env : EnvMap) : String := pyStrip (envGet env "RESTIC_EMAIL_SMTP_SERVER")

/-- The stripped value of `RESTIC_EMAIL_SMTP_PORT` (line 126). -/
def smtpPortStr (env : EnvMap) : String := pyStrip (envGet env "RESTIC_EMAIL_SMTP_PORT")

/-- The stripped value of `RESTIC_EMAIL_SMTP_USER` (line 143). -/
def smtpUserVal (env : EnvMap) : String := pyStrip (envGet env "RESTIC_EMAIL_SMTP_USER")

/-- The stripped value of `RESTIC_EMAIL_SMTP_PASSWORD` (line 150). -/
def smtpPasswordVal (env : EnvMap) : String := pyStrip (envGet env "RESTIC_EMAIL_SMTP_PASSWORD")

/-- The stripped value of `RESTIC_EMAIL_SMTP_TLS` (line 157). -/
def smtpTlsVal (env : EnvMap) : String := pyStrip (envGet env "RESTIC_EMAIL_SMTP_TLS")

/-- The shared text of the seven "missing field" errors. -/
def requiredMsg (field : String) : String :=
  field ++ " is required when RESTIC_EMAIL_NOTIFICATIONS_ENABLED is true"

/-- The per-address test of the `RESTIC_EMAIL_TO` loop (line 105):
`not email or "@" not in email or "." not in email`. -/
def emailInvalid (email : String) : Bool :=
  email.isEmpty || !pyContains email '@' || !pyContains email '.'

/-- The sender test (line 115): `"@" not in from_email or "." not in
from_email` (the empty case was handled by the branch above it). -/
def fromCheckFails (email : String) : Bool :=
  !pyContains email '@' || !pyContains email '.'

/-- Errors contributed by `RESTIC_EMAIL_TO` (lines 97-107): the field is
required; otherwise one error per invalid address, in list order. -/
def toErrors (env : EnvMap) : List String :=
  if (toEmailsVal env).isEmpty then [requiredMsg "RESTIC_EMAIL_TO"]
  else (toEmailList env).filterMap fun email =>
    if emailInvalid email then some ("Invalid email address in RESTIC_EMAIL_TO: " ++ email)
    else none

/-- Errors contributed by `RESTIC_EMAIL_FROM` (lines 110-116). -/
def fromErrors (env : EnvMap) : List String :=
  if (fromEmailVal env).isEmpty then [requiredMsg "RESTIC_EMAIL_FROM"]
  else if fromCheckFails (fromEmailVal env) then
    ["Invalid email address in RESTIC_EMAIL_FROM: " ++ fromEmailVal env]
  else []

/-- Errors contributed by `RESTIC_EMAIL_SMTP_SERVER` (lines 119-123). -/
def serverErrors (env : EnvMap) : List String :=
  if (smtpServerVal env).isEmpty then [requiredMsg "RESTIC_EMAIL_SMTP_SERVER"] else []

/-- Errors contributed by `RESTIC_EMAIL_SMTP_PORT` (lines 126-141): the
field is required; a string `int()` rejects is reported verbatim; a
parsed port outside 1..65535 is reported in its integer rendering. -/
def portErrors (env : EnvMap) : List String :=
  if (smtpPortStr env).isEmpty then [requiredMsg "RESTIC_EMAIL_SMTP_PORT"]
  else
    match pyInt? (smtpPortStr env) with
    | none => ["Invalid SMTP port in RESTIC_EMAIL_SMTP_PORT: " ++ smtpPortStr env]
    | some p =>
      if p < 1 || p > 65535 then
        ["Invalid SMTP port in RESTIC_EMAIL_SMTP_PORT: " ++ toString p]
      else []

/-- Errors contributed by `RESTIC_EMAIL_SMTP_USER` (lines 143-147). -/
def userErrors (env : EnvMap) : List String :=
  if (smtpUserVal env).isEmpty then [requiredMsg "RESTIC_EMAIL_SMTP_USER"] else []

/-- Errors contributed by `RESTIC_EMAIL_SMTP_PASSWORD` (lines 150-154). -/
def passwordErrors (env : EnvMap) : List String :=
  if (smtpPasswordVal env).isEmpty then [requiredMsg "RESTIC_EMAIL_SMTP_PASSWORD"] else []

/-- Errors contributed by `RESTIC_EMAIL_SMTP_TLS` (lines 157-165): the
field is required and, when present, its lowercasing must be the word
true or the word false. -/
def tlsErrors (env : EnvMap) : List String :=
  if (smtpTlsVal env).isEmpty then [requiredMsg "RESTIC_EMAIL_SMTP_TLS"]
  else if pyLower (smtpTlsVal env) != "true" && pyLower (smtpTlsVal env) != "false" then
    ["RESTIC_EMAIL_SMTP_TLS must be \x27true\x27 or \x27false\x27, got: " ++ smtpTlsVal env]
  else []

/-- All validation errors collected by `get_email_config`, in the order
the Python code appends them (lines 92-165). -/
def allErrors (env : EnvMap) : List String :=
  toErrors env ++ fromErrors env ++ serverErrors env ++ portErrors env
    ++ userErrors env ++ passwordErrors env ++ tlsErrors env

/-- The configuration dict built at lines 170-178 when validation
passes. -/
structure EmailConfig : Type where
  to_emails : List String
  from_email : String
  smtp_server : String
  smtp_port : Int
  smtp_user : String
  smtp_password : String
  use_tls : Bool
deriving DecidableEq, Repr

/-- Result of `get_email_config`: `None` when the enable flag is not the
word true (lines 83-85); otherwise either `sys.exit(1)` after printing
every collected error (lines 167-169, the `invalid` constructor), or the
validated configuration. -/
inductive EmailConfigResult : Type
  | disabled
  | invalid (errors : List String)
  | valid (cfg : EmailConfig)
deriving DecidableEq, Repr

/-- `get_email_config` (lines 81-179). -/
def get_email_config (env : EnvMap) : EmailConfigResult :=
  if pyLower (envGet env "RESTIC_EMAIL_NOTIFICATIONS_ENABLED") != "true" then .disabled
  else if allErrors env = [] then
    .valid
      { to_emails := toEmailList env
        from_email := fromEmailVal env
        smtp_server := smtpServerVal env
        smtp_port := (pyInt? (smtpPortStr env)).getD 0
        smtp_user := smtpUserVal env
        smtp_password := smtpPasswordVal env
        use_tls := pyLower (smtpTlsVal env) == "true" }
  else .invalid (allErrors env)

/-- The guard of `send_notification` (lines 225-228): the function
returns before composing or sending anything when the exit code is 0 or
no email configuration is present; otherwise it reaches the
`send_email` call. -/
def sendNotificationAttempts (exitCode : Int) (cfg : Option EmailConfig) : Bool :=
  if exitCode == 0 || cfg.isNone then false else true

/-- Observable outcome of `main` (lines 263-292): either the process
exits 1 during email-configuration validation, before any backup is
launched, or the backup runs and the process exits with the backup's
exit code, having attempted an email exactly when `attempted`. -/
inductive MainOutcome : Type
  | configError (errors : List String)
  | ran (exitCode : Int) (output : String) (attempted : Bool) (emailSent : Bool)
deriving DecidableEq, Repr

/-- `main` after argument parsing and environment-file loading, driven
by the launch outcome of the child process.  `transportOk` abstracts
whether `send_email`'s SMTP transaction succeeds; when it fails,
`send_email` catches the exception and returns `False`, and
`send_notification` only prints an error (lines 58-62 and 255-256). -/
def mainRun (env : EnvMap) (outcome : LaunchOutcome) (transportOk : Bool) : MainOutcome :=
  match get_email_config env with
  | .invalid errs => .configError errs
  | .disabled =>
    let r := run_backup outcome
    let att := sendNotificationAttempts r.1 none
    .ran r.1 r.2 att (att && transportOk)
  | .valid cfg =>
    let r := run_backup outcome
    let att := sendNotificationAttempts r.1 (some cfg)
    .ran r.1 r.2 att (att && transportOk)

/-- The wrapper's own exit code: 1 when configuration validation fails,
otherwise the child's exit code verbatim (line 292). -/
def wrapperExit : MainOutcome → Int
  | .configError _ => 1
  | .ran ec _ _ _ => ec

/-- Whether the run attempted an email transmission. -/
def attemptedOf : MainOutcome → Bool
  | .configError _ => false
  | .ran _ _ att _ => att

/-- A fully-populated, well-formed email configuration: every field
carries validated content (nonempty recipients each containing both
separators, likewise the sender, nonempty host/user/password, a port in
1..65535). -/
def fullyPopulated (cfg : EmailConfig) : Prop :=
  cfg.to_emails ≠ [] ∧
  (∀ e ∈ cfg.to_emails, e ≠ "" ∧ pyContains e '@' = true ∧ pyContains e '.' = true) ∧
  cfg.from_email ≠ "" ∧ pyContains cfg.from_email '@' = true ∧
  pyContains cfg.from_email '.' = true ∧
  cfg.smtp_server ≠ "" ∧
  1 ≤ cfg.smtp_port ∧ cfg.smtp_port ≤ 65535 ∧
  cfg.smtp_user ≠ "" ∧ cfg.smtp_password ≠ ""

/-- Whether `get_email_config` aborted the run (printed its errors and
called `sys.exit(1)`). -/
def isInvalid : EmailConfigResult → Bool
  | .invalid _ => true
  | _ => false

/-- A concrete environment file content on which email validation
succeeds, used to instantiate theorems that hypothesise a validated
configuration. -/
def sampleEnv : EnvMap :=
  [("RESTIC_EMAIL_NOTIFICATIONS_ENABLED", "true"),
   ("RESTIC_EMAIL_TO", "admin@example.com, ops@example.com"),
   ("RESTIC_EMAIL_FROM", "restic@example.com"),
   ("RESTIC_EMAIL_SMTP_SERVER", "smtp.example.com"),
   ("RESTIC_EMAIL_SMTP_PORT", "587"),
   ("RESTIC_EMAIL_SMTP_USER", "user"),
   ("RESTIC_EMAIL_SMTP_PASSWORD", "pw"),
   ("RESTIC_EMAIL_SMTP_TLS", "true")]

/-- The configuration `get_email_config` builds from `sampleEnv`. -/
def sampleCfg : EmailConfig :=
  { to_emails := ["admin@example.com", "ops@example.com"]
    from_email := "restic@example.com"
    smtp_server := "smtp.example.com"
    smtp_port := 587
    smtp_user := "user"
    smtp_password := "pw"
    use_tls := true }


/-- An environment whose sender address contains the at sign but no dot:
used to instantiate claim C9. -/
def noDotEnv : EnvMap :=
  [("RESTIC_EMAIL_NOTIFICATIONS_ENABLED", "true"),
   ("RESTIC_EMAIL_FROM", "root@localhost")]

/-! ## Helper lemmas -/

/-- Folding string append starting from `a` equals `a` followed by the
fold started from the empty string. -/
theorem foldl_append_shift (l : List String) (a : String) :
    l.foldl (fun r s => r ++ s) a = a ++ l.foldl (fun r s => r ++ s) "" := by
  induction l generalizing a with
  | nil => simp
  | cons s l ih =>
    simp only [List.foldl_cons]
    rw [ih (a ++ s), ih ("" ++ s), String.append_assoc]
    simp

/-- `String.join` unfolds one element at a time. -/
theorem stringJoin_cons (s : String) (l : List String) :
    String.join (s :: l) = s ++ String.join l := by
  simp only [String.join, List.foldl_cons]
  rw [foldl_append_shift l ("" ++ s)]
  simp

/-- The captured stdout is the join of the stdout chunks in order. -/
theorem drainOut_eq_join (es : List StreamEvent) :
    drainOut es = String.join (outLines es) := by
  induction es with
  | nil => rfl
  | cons e rest ih =>
    cases e with
    | out s =>
      show s ++ drainOut rest = String.join (s :: outLines rest)
      rw [stringJoin_cons, ih]
    | err s =>
      show drainOut rest = String.join (outLines rest)
      exact ih

/-- The captured stderr is the join of the stderr chunks in order. -/
theorem drainErr_eq_join (es : List StreamEvent) :
    drainErr es = String.join (errLines es) := by
  induction es with
  | nil => rfl
  | cons e rest ih =>
    cases e with
    | out s =>
      show drainErr rest = String.join (errLines rest)
      exact ih
    | err s =>
      show s ++ drainErr rest = String.join (s :: errLines rest)
      rw [stringJoin_cons, ih]

/-! ## Claim theorems -/

/-- Claim C1: for every child process run by `run_backup` producing a
sequence of stdout chunks and a sequence of stderr chunks, the combined
output is all stdout chunks concatenated in order followed by all stderr
chunks concatenated in order; it depends only on the two per-channel
sequences, not on the relative timing of the two streams. -/
theorem run_backup_combined_output (es : List StreamEvent) (code : Int) :
    (run_backup (.ok ⟨es, code⟩)).2 =
      String.join (outLines es) ++ String.join (errLines es) ∧
    (∀ es2 : List StreamEvent, outLines es2 = outLines es →
      errLines es2 = errLines es →
      (run_backup (.ok ⟨es2, code⟩)).2 = (run_backup (.ok ⟨es, code⟩)).2) := by
  have main : ∀ l : List StreamEvent,
      (run_backup (.ok ⟨l, code⟩)).2 = String.join (outLines l) ++ String.join (errLines l) := by
    intro l
    simp [run_backup, drainOut_eq_join, drainErr_eq_join]
  exact ⟨main es, fun es2 h1 h2 => by rw [main es2, main es, h1, h2]⟩

/-- Concrete instance of claim C1: a child that writes to stderr before
stdout still yields stdout-then-stderr, and reordering the writes leaves
the combined output unchanged. -/
theorem run_backup_combined_output_witness :
    (run_backup (.ok ⟨[.err "b\n", .out "a\n"], 3⟩)).2 =
      String.join (outLines [.err "b\n", .out "a\n"]) ++
        String.join (errLines [.err "b\n", .out "a\n"]) ∧
    (run_backup (.ok ⟨[.out "a\n", .err "b\n"], 3⟩)).2 =
      (run_backup (.ok ⟨[.err "b\n", .out "a\n"], 3⟩)).2 :=
  ⟨(run_backup_combined_output [.err "b\n", .out "a\n"] 3).1,
   (run_backup_combined_output [.err "b\n", .out "a\n"] 3).2
     [.out "a\n", .err "b\n"] (by decide) (by decide)⟩

/-- Claim C6: `send_email` uses implicit TLS on connect exactly when TLS
is requested and the port is 465; otherwise STARTTLS when TLS is
requested; otherwise plaintext with no upgrade. -/
theorem sendEmailMode_selection (t : Bool) (p : Int) :
    (sendEmailMode t p = .sslOnConnect ↔ (t = true ∧ p = 465)) ∧
    (sendEmailMode t p = .starttlsUpgrade ↔ (t = true ∧ p ≠ 465)) ∧
    (sendEmailMode t p = .plaintext ↔ t = false) := by
  cases t <;> by_cases h : p = 465 <;>
    simp [sendEmailMode, beq_iff_eq, h]

/-- Claim C10: for every pair of lists `a` and `b`, the `extend` filter
returns the concatenation of `a` followed by the elements of `b`. -/
theorem extend_appends {α : Type} (a b : List α) : extend a b = a ++ b := by
  induction b generalizing a with
  | nil => simp [extend]
  | cons x xs ih =>
    simp only [extend, List.foldl_cons, List.concat_eq_append] at ih ⊢
    rw [ih (a ++ [x])]
    simp

/-- Claim C3: an email transport attempt is made if and only if the child
exit code is non-zero and a validated email configuration is present.
With the enable flag absent or false `get_email_config` returns
`disabled` and no transport is attempted even on failure; with a child
exit of 0 no transport is attempted even with a valid configuration. -/
theorem notification_attempt_iff (env : EnvMap) (r : ProcResult) (transportOk : Bool) :
    attemptedOf (mainRun env (.ok r) transportOk) = true ↔
      (r.returncode ≠ 0 ∧ ∃ cfg, get_email_config env = .valid cfg) := by
  cases hc : get_email_config env with
  | disabled =>
    simp [mainRun, hc, attemptedOf, sendNotificationAttempts]
  | invalid errs =>
    simp [mainRun, hc, attemptedOf]
  | valid cfg =>
    by_cases hz : r.returncode = 0 <;>
      simp [mainRun, hc, attemptedOf, sendNotificationAttempts, run_backup, hz]

/-- Claim C5: when launching the child process raises, `run_backup`
returns the synthetic result (exit code 1, explanatory message), and
with a validated email configuration the notification path still runs on
that result. -/
theorem run_backup_launch_failure (msg : String) (env : EnvMap) (cfg : EmailConfig)
    (transportOk : Bool) (hcfg : get_email_config env = .valid cfg) :
    run_backup (.failure msg) = (1, "Failed to execute backup command: " ++ msg) ∧
    mainRun env (.failure msg) transportOk =
      .ran 1 ("Failed to execute backup command: " ++ msg) true transportOk := by
  refine ⟨rfl, ?_⟩
  simp [mainRun, hcfg, run_backup, sendNotificationAttempts]

/-- Concrete instance of claim C5: a missing binary message becomes the
combined output, the exit code is 1, and the notification is attempted
under `sampleEnv`. -/
theorem run_backup_launch_failure_witness :
    run_backup (.failure "No such file or directory") =
      (1, "Failed to execute backup command: " ++ "No such file or directory") ∧
    mainRun sampleEnv (.failure "No such file or directory") true =
      .ran 1 ("Failed to execute backup command: " ++ "No such file or directory") true true :=
  run_backup_launch_failure "No such file or directory" sampleEnv sampleCfg true (by decide)

/-- Claim C8: for every run that reaches the child process, the
wrapper's exit code is the child's exit code verbatim, and the outcome
of the email transmission never alters it. -/
theorem wrapper_exit_propagates (env : EnvMap) (r : ProcResult) (t1 t2 : Bool)
    (h : isInvalid (get_email_config env) = false) :
    wrapperExit (mainRun env (.ok r) t1) = r.returncode ∧
    wrapperExit (mainRun env (.ok r) t1) = wrapperExit (mainRun env (.ok r) t2) := by
  cases hc : get_email_config env with
  | invalid errs => rw [hc] at h; simp [isInvalid] at h
  | disabled => simp [mainRun, hc, wrapperExit, run_backup]
  | valid cfg => simp [mainRun, hc, wrapperExit, run_backup]

/-- Concrete instance of claim C8: under `sampleEnv` a child exiting 3
makes the wrapper exit 3, whether or not the email transmission
succeeds. -/
theorem wrapper_exit_propagates_witness :
    wrapperExit (mainRun sampleEnv (.ok ⟨[.out "done\n"], 3⟩) true) = 3 ∧
    wrapperExit (mainRun sampleEnv (.ok ⟨[.out "done\n"], 3⟩) true) =
      wrapperExit (mainRun sampleEnv (.ok ⟨[.out "done\n"], 3⟩) false) :=
  wrapper_exit_propagates sampleEnv ⟨[.out "done\n"], 3⟩ true false (by decide)

/-- Inserting a fresh key grows the map by exactly one entry. -/
theorem envInsert_not_mem_length {m : EnvMap} {k : String} (v : String)
    (h : ¬ k ∈ m.map Prod.fst) : (envInsert m k v).length = m.length + 1 := by
  unfold envInsert
  rw [if_neg]
  · simp
  · simp only [List.any_eq_true, beq_iff_eq]
    rintro ⟨p, hp, rfl⟩
    exact h (List.mem_map.mpr ⟨p, hp, rfl⟩)

/-- Inserting a fresh key appends it to the key list. -/
theorem envInsert_not_mem_keys {m : EnvMap} {k : String} (v : String)
    (h : ¬ k ∈ m.map Prod.fst) :
    (envInsert m k v).map Prod.fst = m.map Prod.fst ++ [k] := by
  unfold envInsert
  rw [if_neg]
  · simp
  · simp only [List.any_eq_true, beq_iff_eq]
    rintro ⟨p, hp, rfl⟩
    exact h (List.mem_map.mpr ⟨p, hp, rfl⟩)

/-- The loop of `load_environment_file`, started from any accumulator
whose keys avoid the keys of the pending valid lines: each valid line
adds exactly one entry when the valid lines carry pairwise distinct
keys. -/
theorem foldl_processLine_length (lines : List String) :
    ∀ m : EnvMap,
      ((lines.filter isValidLine).map lineKey).Nodup →
      (∀ l ∈ lines.filter isValidLine, ¬ lineKey l ∈ m.map Prod.fst) →
      (lines.foldl processLine m).length = m.length + (lines.filter isValidLine).length := by
  induction lines with
  | nil => intro m _ _; simp
  | cons line rest ih =>
    intro m hnd hdis
    by_cases hv : isValidLine line
    · have hfil : (line :: rest).filter isValidLine = line :: rest.filter isValidLine := by
        simp [List.filter_cons, hv]
      rw [hfil] at hnd hdis
      simp only [List.map_cons, List.nodup_cons] at hnd
      obtain ⟨hknotin, hnd2⟩ := hnd
      have hkey_m : ¬ lineKey line ∈ m.map Prod.fst :=
        hdis line (List.mem_cons_self line _)
      have hstep : processLine m line =
          envInsert m (lineKey line) ((parseLine (pyStrip line)).2) := by
        simp [processLine, hv, lineKey]
      rw [List.foldl_cons, hfil, List.length_cons, hstep]
      rw [ih _ hnd2 ?_]
      · rw [envInsert_not_mem_length _ hkey_m]
        omega
      · intro l hl hmem
        rw [envInsert_not_mem_keys _ hkey_m] at hmem
        rcases List.mem_append.mp hmem with hin | hone
        · exact hdis l (List.mem_cons_of_mem _ hl) hin
        · rcases List.mem_singleton.mp hone with heq
          exact hknotin (List.mem_map.mpr ⟨l, hl, heq⟩)
    · have hfil : (line :: rest).filter isValidLine = rest.filter isValidLine := by
        simp [List.filter_cons, hv]
      rw [hfil] at hnd hdis
      have hstep : processLine m line = m := by simp [processLine, hv]
      rw [List.foldl_cons, hstep, hfil]
      exact ih m hnd hdis

/-- Claim C2 as stated is false on the code: a file whose two lines are
both valid `key=value` lines with the same key (`N = 2`, `M = 0`) loads
to a map with a single entry, not `N` entries. -/
theorem load_environment_file_dup_counterexample :
    (["DUP=1", "DUP=2"].filter isValidLine).length = 2 ∧
    (["DUP=1", "DUP=2"].filter (fun l => !isValidLine l)).length = 0 ∧
    (load_environment_file ["DUP=1", "DUP=2"]).length = 1 := by decide

/-- Claim C2 (amended): for every environment file whose valid
`key=value` lines carry pairwise distinct stripped keys, the loaded map
has exactly one entry per valid line, regardless of how many comment or
blank lines accompany them; with duplicate keys the later line
overwrites the earlier entry. -/
theorem load_environment_file_entry_count (lines : List String)
    (h : ((lines.filter isValidLine).map lineKey).Nodup) :
    (load_environment_file lines).length = (lines.filter isValidLine).length := by
  have hlen := foldl_processLine_length lines [] h (by simp)
  simpa [load_environment_file] using hlen

/-- Concrete instance of claim C2 (amended): two valid lines with
distinct keys plus a comment line and a blank line load to exactly two
entries. -/
theorem load_environment_file_entry_count_witness :
    (load_environment_file ["# comment", "", "A=1", "B=2"]).length =
      ((["# comment", "", "A=1", "B=2"]).filter isValidLine).length :=
  load_environment_file_entry_count ["# comment", "", "A=1", "B=2"] (by decide)

/-- A validation error under an enabled flag sends `get_email_config`
into the exiting branch, carrying the full collected error list. -/
theorem get_email_config_eq_invalid {env : EnvMap}
    (hen : pyLower (envGet env "RESTIC_EMAIL_NOTIFICATIONS_ENABLED") = "true")
    (herr : allErrors env ≠ []) :
    get_email_config env = .invalid (allErrors env) := by
  unfold get_email_config
  rw [hen]
  rw [if_neg (by simp)]
  rw [if_neg herr]

/-- A sublist survives appending on the right. -/
theorem sublist_append_extend {α : Type} {l l1 : List α} (l2 : List α)
    (h : List.Sublist l l1) : List.Sublist l (l1 ++ l2) :=
  h.trans (List.sublist_append_left l1 l2)

/-- A sublist survives prepending on the left. -/
theorem sublist_append_shift {α : Type} {l l2 : List α} (l1 : List α)
    (h : List.Sublist l l2) : List.Sublist l (l1 ++ l2) :=
  h.trans (List.sublist_append_right l1 l2)

/-- Claim C4: when the enable flag is true and at least one of the seven
email fields is blank or malformed, `get_email_config` exits the process
with code 1 (the `invalid` outcome) reporting the whole collected error
list, and that list contains every field's errors in order - not only
the first violated field's. -/
theorem get_email_config_reports_all (env : EnvMap)
    (hen : pyLower (envGet env "RESTIC_EMAIL_NOTIFICATIONS_ENABLED") = "true")
    (herr : allErrors env ≠ []) :
    get_email_config env = .invalid (allErrors env) ∧
    List.Sublist (toErrors env) (allErrors env) ∧
    List.Sublist (fromErrors env) (allErrors env) ∧
    List.Sublist (serverErrors env) (allErrors env) ∧
    List.Sublist (portErrors env) (allErrors env) ∧
    List.Sublist (userErrors env) (allErrors env) ∧
    List.Sublist (passwordErrors env) (allErrors env) ∧
    List.Sublist (tlsErrors env) (allErrors env) := by
  refine ⟨get_email_config_eq_invalid hen herr, ?_, ?_, ?_, ?_, ?_, ?_, ?_⟩ <;>
    unfold allErrors
  · exact sublist_append_extend _ (sublist_append_extend _ (sublist_append_extend _
      (sublist_append_extend _ (sublist_append_extend _ (sublist_append_extend _
        (List.Sublist.refl _))))))
  · exact sublist_append_extend _ (sublist_append_extend _ (sublist_append_extend _
      (sublist_append_extend _ (sublist_append_extend _ (sublist_append_shift _
        (List.Sublist.refl _))))))
  · exact sublist_append_extend _ (sublist_append_extend _ (sublist_append_extend _
      (sublist_append_extend _ (sublist_append_shift _ (List.Sublist.refl _)))))
  · exact sublist_append_extend _ (sublist_append_extend _ (sublist_append_extend _
      (sublist_append_shift _ (List.Sublist.refl _))))
  · exact sublist_append_extend _ (sublist_append_extend _ (sublist_append_shift _
      (List.Sublist.refl _)))
  · exact sublist_append_extend _ (sublist_append_shift _ (List.Sublist.refl _))
  · exact sublist_append_shift _ (List.Sublist.refl _)

/-- Concrete instance of claim C4: with only the enable flag set, all
seven fields are violated and all seven are reported. -/
theorem get_email_config_reports_all_witness :
    get_email_config [("RESTIC_EMAIL_NOTIFICATIONS_ENABLED", "true")] =
      .invalid (allErrors [("RESTIC_EMAIL_NOTIFICATIONS_ENABLED", "true")]) ∧
    (allErrors [("RESTIC_EMAIL_NOTIFICATIONS_ENABLED", "true")]).length = 7 :=
  ⟨(get_email_config_reports_all [("RESTIC_EMAIL_NOTIFICATIONS_ENABLED", "true")]
      (by decide) (by decide)).1,
   by decide⟩

/-- `splitSepAux` always produces at least one field. -/
theorem splitSepAux_ne_nil (sep : Char) (cs : List Char) :
    ∀ acc, splitSepAux sep cs acc ≠ [] := by
  induction cs with
  | nil => intro acc; simp [splitSepAux]
  | cons c cs ih =>
    intro acc
    simp only [splitSepAux]
    by_cases h : (c == sep) = true
    · rw [if_pos h]; simp
    · rw [if_neg h]; exact ih _

/-- The recipient list is never empty: `split` yields at least one
field. -/
theorem toEmailList_ne_nil (env : EnvMap) : toEmailList env ≠ [] := by
  intro h
  unfold toEmailList pySplit at h
  rw [List.map_eq_nil_iff, List.map_eq_nil_iff] at h
  exact splitSepAux_ne_nil _ _ _ h

/-- A string whose `isEmpty` test fails is not the empty string. -/
theorem string_ne_empty_of_isEmpty_false {s : String} (h : s.isEmpty = false) :
    s ≠ "" := by
  intro he
  subst he
  exact absurd h (by decide)

/-- Unfolding a passed per-address check: the address is nonempty and
contains both separators. -/
theorem emailInvalid_false_parts {e : String} (h : emailInvalid e = false) :
    e ≠ "" ∧ pyContains e '@' = true ∧ pyContains e '.' = true := by
  unfold emailInvalid at h
  simp only [Bool.or_eq_false_iff, Bool.not_eq_false'] at h
  obtain ⟨⟨h1, h2⟩, h3⟩ := h
  exact ⟨string_ne_empty_of_isEmpty_false h1, h2, h3⟩

/-- Unfolding a passed sender check: the address contains both
separators. -/
theorem fromCheckFails_false_parts {e : String} (h : fromCheckFails e = false) :
    pyContains e '@' = true ∧ pyContains e '.' = true := by
  unfold fromCheckFails at h
  simp only [Bool.or_eq_false_iff, Bool.not_eq_false'] at h
  exact h

/-- When `RESTIC_EMAIL_TO` contributes no error, every address in the
recipient list passes the per-address check. -/
theorem toErrors_nil_parts {env : EnvMap} (h : toErrors env = []) :
    ∀ e ∈ toEmailList env, emailInvalid e = false := by
  unfold toErrors at h
  by_cases h0 : (toEmailsVal env).isEmpty = true
  · rw [if_pos h0] at h; cases h
  · rw [if_neg h0] at h
    intro e he
    have h2 := List.filterMap_eq_nil_iff.mp h e he
    by_cases hinv : emailInvalid e = true
    · rw [if_pos hinv] at h2; cases h2
    · exact Bool.eq_false_iff.mpr hinv

/-- When `RESTIC_EMAIL_FROM` contributes no error, the sender is
nonblank and passes the sender check. -/
theorem fromErrors_nil_parts {env : EnvMap} (h : fromErrors env = []) :
    (fromEmailVal env).isEmpty = false ∧ fromCheckFails (fromEmailVal env) = false := by
  unfold fromErrors at h
  by_cases h0 : (fromEmailVal env).isEmpty = true
  · rw [if_pos h0] at h; cases h
  · rw [if_neg h0] at h
    by_cases h1 : fromCheckFails (fromEmailVal env) = true
    · rw [if_pos h1] at h; cases h
    · exact ⟨Bool.eq_false_iff.mpr h0, Bool.eq_false_iff.mpr h1⟩

/-- When `RESTIC_EMAIL_SMTP_SERVER` contributes no error, it is
nonblank. -/
theorem serverErrors_nil_parts {env : EnvMap} (h : serverErrors env = []) :
    (smtpServerVal env).isEmpty = false := by
  unfold serverErrors at h
  by_cases h0 : (smtpServerVal env).isEmpty = true
  · rw [if_pos h0] at h; cases h
  · exact Bool.eq_false_iff.mpr h0

/-- When `RESTIC_EMAIL_SMTP_USER` contributes no error, it is
nonblank. -/
theorem userErrors_nil_parts {env : EnvMap} (h : userErrors env = []) :
    (smtpUserVal env).isEmpty = false := by
  unfold userErrors at h
  by_cases h0 : (smtpUserVal env).isEmpty = true
  · rw [if_pos h0] at h; cases h
  · exact Bool.eq_false_iff.mpr h0

/-- When `RESTIC_EMAIL_SMTP_PASSWORD` contributes no error, it is
nonblank. -/
theorem passwordErrors_nil_parts {env : EnvMap} (h : passwordErrors env = []) :
    (smtpPasswordVal env).isEmpty = false := by
  unfold passwordErrors at h
  by_cases h0 : (smtpPasswordVal env).isEmpty = true
  · rw [if_pos h0] at h; cases h
  · exact Bool.eq_false_iff.mpr h0

/-- When `RESTIC_EMAIL_SMTP_PORT` contributes no error, the string
parses to an integer in the valid port range. -/
theorem portErrors_nil_parts {env : EnvMap} (h : portErrors env = []) :
    ∃ p : Int, pyInt? (smtpPortStr env) = some p ∧ 1 ≤ p ∧ p ≤ 65535 := by
  unfold portErrors at h
  by_cases h0 : (smtpPortStr env).isEmpty = true
  · rw [if_pos h0] at h; cases h
  · rw [if_neg h0] at h
    cases hp : pyInt? (smtpPortStr env) with
    | none => rw [hp] at h; cases h
    | some p =>
      rw [hp] at h
      dsimp only at h
      by_cases hr : (p < 1 || p > 65535) = true
      · rw [if_pos hr] at h; cases h
      · simp only [Bool.or_eq_true, decide_eq_true_eq, not_or] at hr
        exact ⟨p, rfl, by omega, by omega⟩

/-- Inverting a successful `get_email_config`: validation produced no
errors and the returned configuration is the record built at lines
170-178. -/
theorem get_email_config_valid_inv {env : EnvMap} {cfg : EmailConfig}
    (h : get_email_config env = .valid cfg) :
    allErrors env = [] ∧
    cfg = { to_emails := toEmailList env
            from_email := fromEmailVal env
            smtp_server := smtpServerVal env
            smtp_port := (pyInt? (smtpPortStr env)).getD 0
            smtp_user := smtpUserVal env
            smtp_password := smtpPasswordVal env
            use_tls := pyLower (smtpTlsVal env) == "true" } := by
  unfold get_email_config at h
  by_cases h1 : (pyLower (envGet env "RESTIC_EMAIL_NOTIFICATIONS_ENABLED") != "true") = true
  · rw [if_pos h1] at h; cases h
  · rw [if_neg h1] at h
    by_cases h2 : allErrors env = []
    · rw [if_pos h2] at h
      injection h with h3
      exact ⟨h2, h3.symm⟩
    · rw [if_neg h2] at h; cases h

/-- Claim C7: the value `get_email_config` returns is either absent
(`disabled`) or a configuration in which all seven fields are populated
and validated; a partially populated configuration is never returned. -/
theorem get_email_config_all_or_nothing (env : EnvMap) (cfg : EmailConfig)
    (h : get_email_config env = .valid cfg) : fullyPopulated cfg := by
  obtain ⟨hnil, hcfg⟩ := get_email_config_valid_inv h
  subst hcfg
  unfold allErrors at hnil
  obtain ⟨h6, hTls⟩ := List.append_eq_nil.mp hnil
  obtain ⟨h5, hPw⟩ := List.append_eq_nil.mp h6
  obtain ⟨h4, hUser⟩ := List.append_eq_nil.mp h5
  obtain ⟨h3, hPort⟩ := List.append_eq_nil.mp h4
  obtain ⟨h2, hServer⟩ := List.append_eq_nil.mp h3
  obtain ⟨hTo, hFrom⟩ := List.append_eq_nil.mp h2
  obtain ⟨hf1, hf2⟩ := fromErrors_nil_parts hFrom
  obtain ⟨p, hp, hp1, hp2⟩ := portErrors_nil_parts hPort
  refine ⟨toEmailList_ne_nil env, ?_, ?_, ?_, ?_, ?_, ?_, ?_, ?_, ?_⟩
  · intro e he
    exact emailInvalid_false_parts (toErrors_nil_parts hTo e he)
  · exact string_ne_empty_of_isEmpty_false hf1
  · exact (fromCheckFails_false_parts hf2).1
  · exact (fromCheckFails_false_parts hf2).2
  · exact string_ne_empty_of_isEmpty_false (serverErrors_nil_parts hServer)
  · show 1 ≤ (pyInt? (smtpPortStr env)).getD 0
    rw [hp]
    exact hp1
  · show (pyInt? (smtpPortStr env)).getD 0 ≤ 65535
    rw [hp]
    exact hp2
  · exact string_ne_empty_of_isEmpty_false (userErrors_nil_parts hUser)
  · exact string_ne_empty_of_isEmpty_false (passwordErrors_nil_parts hPw)

/-- Concrete instance of claim C7: the configuration built from
`sampleEnv` is fully populated. -/
theorem get_email_config_all_or_nothing_witness : fullyPopulated sampleCfg :=
  get_email_config_all_or_nothing sampleEnv sampleCfg (by decide)

/-- A string containing a character is not the empty string. -/
theorem pyContains_ne_empty {s : String} {c : Char} (h : pyContains s c = true) :
    s ≠ "" := by
  intro he
  subst he
  have h0 : pyContains "" c = false := rfl
  rw [h0] at h
  cases h

/-- Claim C9: the address validation applied to every recipient and to
the sender accepts an address only when it contains both an at sign and
a dot, so an address with an at sign but no dot is rejected; under an
enabled flag such a sender drives `get_email_config` into the exiting
branch with the corresponding error among those reported. -/
theorem email_validation_requires_dot (s : String) (env : EnvMap) :
    (emailInvalid s = false ↔
      (s ≠ "" ∧ pyContains s '@' = true ∧ pyContains s '.' = true)) ∧
    (fromCheckFails s = false ↔
      (pyContains s '@' = true ∧ pyContains s '.' = true)) ∧
    (pyContains (fromEmailVal env) '@' = true →
      pyContains (fromEmailVal env) '.' = false →
      pyLower (envGet env "RESTIC_EMAIL_NOTIFICATIONS_ENABLED") = "true" →
      get_email_config env = .invalid (allErrors env) ∧
        ("Invalid email address in RESTIC_EMAIL_FROM: " ++ fromEmailVal env)
          ∈ allErrors env) := by
  refine ⟨?_, ?_, ?_⟩
  · constructor
    · exact emailInvalid_false_parts
    · rintro ⟨h1, h2, h3⟩
      have h0 : s.isEmpty = false :=
        Bool.eq_false_iff.mpr (fun he => h1 ((String.isEmpty_iff _).mp he))
      unfold emailInvalid
      rw [h0, h2, h3]
      rfl
  · constructor
    · exact fromCheckFails_false_parts
    · rintro ⟨h2, h3⟩
      unfold fromCheckFails
      rw [h2, h3]
      rfl
  · intro hAt hDot hen
    have hne : fromEmailVal env ≠ "" := pyContains_ne_empty hAt
    have hemp : (fromEmailVal env).isEmpty = false :=
      Bool.eq_false_iff.mpr (fun he => hne ((String.isEmpty_iff _).mp he))
    have hfail : fromCheckFails (fromEmailVal env) = true := by
      unfold fromCheckFails
      rw [hDot]
      simp
    have hfrom : fromErrors env =
        ["Invalid email address in RESTIC_EMAIL_FROM: " ++ fromEmailVal env] := by
      unfold fromErrors
      rw [hemp, hfail]
      rfl
    have hmem : ("Invalid email address in RESTIC_EMAIL_FROM: " ++ fromEmailVal env)
        ∈ allErrors env := by
      unfold allErrors
      rw [hfrom]
      simp
    exact ⟨get_email_config_eq_invalid hen (List.ne_nil_of_mem hmem), hmem⟩

/-- Concrete instance of claim C9: the sender `root@localhost` contains
an at sign but no dot and is rejected, with its error reported. -/
theorem email_validation_requires_dot_witness :
    get_email_config noDotEnv = .invalid (allErrors noDotEnv) ∧
      ("Invalid email address in RESTIC_EMAIL_FROM: " ++ fromEmailVal noDotEnv)
        ∈ allErrors noDotEnv :=
  (email_validation_requires_dot "root@localhost" noDotEnv).2.2
    (by decide) (by decide) (by decide)
